import Mathlib

/-!
SQLService (src/app/src/services/sqlService.js)

A shallow embedding of the static methods of the class SQLService
and the properties of the guard-and-rewrite pipeline proved about them.

Conventions of the embedding

* A JavaScript field that may be absent, undefined or null is an Option;
  none is the falsy value. Arrays and objects are truthy, also when empty.
  The type field is printed by a template literal, which tells null from
  undefined, so it keeps both.
* The field names from and where are keywords here, so they are spelled
  from_ and where_.
* The libraries the service calls (sql2json, simple-sql-parser, the
  microservice client, the JSON:API deserializer, JSON.stringify, encodeURI)
  are the fields of Env: the service is a function of them.
* A generator driven by the runtime either returns a value or raises: this is
  Except Thrown. Calls to the logger have no effect on the result and are
  left out.
-/

namespace SQLService

/-! ## Data model -/

/-- A JSON value: what a GeoJSON geometry is made of. -/
inductive Json where
  | null
  | bool (b : Bool)
  | num (n : Int)
  | str (s : String)
  | arr (items : List Json)
  | obj (fields : List (String × Json))

/-- The geometry of a feature; the service only hands it to JSON.stringify. -/
abbrev Geometry := Json

/-- A node of the where tree. The constructor is the node's type field;
the constructors function, string, number, literal and conditional are the
ones sql2SQL builds (lines 92-121), operator is a comparison as the parser
produces it. In the sql2json tree a literal is a bare column name and a string
is a quoted string constant. -/
inductive Node where
  | function (value : String) (arguments : List Node)
  | string (value : String)
  | number (value : Int)
  | literal (value : String)
  | conditional (value : String) (left right : Node)
  | operator (value : String) (left right : Node)

/-- The type field of a node. -/
def Node.type : Node → String
  | .function _ _ => "function"
  | .string _ => "string"
  | .number _ => "number"
  | .literal _ => "literal"
  | .conditional _ _ _ => "conditional"
  | .operator _ _ _ => "operator"

/-- The type field of a tree: absent (undefined), null, or a string. -/
inductive TypeField where
  | undefined
  | null
  | string (value : String)
deriving DecidableEq, Repr

/-- The parsed query: the fields the service reads or writes. -/
structure AST where
  type : TypeField
  select : Option (List Node)
  from_ : Option (List String)
  join : Option (List String)
  where_ : Option Node

/-- The object built by generateError (error true, a message) or the bare
success object (error false, no message). -/
structure Result where
  error : Bool
  message : Option String
deriving DecidableEq, Repr

/-- The object returned by obtainASTFromSQL: an error object, or error false
with the ast. -/
structure ASTResult where
  error : Bool
  message : Option String
  ast : Option AST

/-- The outcome of simpleSqlParser.sql2ast. -/
structure Sql2ast where
  status : Bool
  value : Option AST

/-- One feature of a feature collection. -/
structure Feature where
  geometry : Geometry

/-- The geojson attribute of a geostore. -/
structure GeoJSON where
  features : Option (List Feature)

/-- A deserialized geostore. -/
structure Geostore where
  geojson : Option GeoJSON

/-- What the microservice client or the deserializer raises: an object that
may carry a numeric statusCode. -/
structure Failure where
  statusCode : Option Int
deriving DecidableEq, Repr

/-- The value bound by the catch clause of obtainGeoStore: none is a falsy
thrown value. -/
abbrev Caught := Option Failure

/-- What the service itself raises: new Error(message), or the TypeError of a
property read on undefined. -/
inductive Thrown where
  | error (message : String)
  | typeError
deriving DecidableEq, Repr

/-- The options object passed to requestToMicroservice (lines 62-66). -/
structure RequestOptions where
  uri : String
  method : String
  json : Bool
deriving DecidableEq, Repr

/-- The body of a microservice response, before deserialization. -/
abbrev Response := String

/-- The collaborators of the service. -/
structure Env where
  /-- The call new Sql2json(sql).toJSON(); none is a falsy result. -/
  toJSON : String → Option AST
  /-- The call Json2sql.toSQL(parsed). -/
  toSQL : AST → String
  /-- The call simpleSqlParser.sql2ast(sql). -/
  sql2ast : String → Sql2ast
  /-- The builtin encodeURI. -/
  encodeURI : String → String
  /-- The microservice client: a response, or a raised failure. -/
  requestToMicroservice : RequestOptions → Except Caught Response
  /-- The deserializer: a geostore, a falsy value, or a raised failure. -/
  deserialize : Response → Except Caught (Option Geostore)
  /-- The builtin JSON.stringify on a geometry. -/
  stringify : Geometry → String

/-- The argument of sql2SQL. -/
structure Data where
  sql : String
  geostore : Option String

/-- What sql2SQL returns: an error object (lines 85 and 128), or the object
with the fields sql and parsed (lines 130-133). -/
inductive Outcome where
  | failure (result : Result)
  | converted (sql : String) (parsed : AST)

/-! ## The methods -/

/-- Lines 19-25. -/
def generateError (message : String) : Result :=
  { error := true, message := some message }

/-- How the template literal of line 29 prints the type field: a string as
itself, null as null, an absent field as undefined. -/
def templateType : TypeField → String
  | .string s => s
  | .null => "null"
  | .undefined => "undefined"

/-- The test of line 31: a truthy list with more than n entries. -/
def longerThan (n : Nat) : Option (List String) → Bool
  | some l => decide (l.length > n)
  | none => false

/-- Lines 27-37. -/
def correctSQL (ast : AST) : Result :=
  if ast.type ≠ .string "select" ∧ ast.type ≠ .string "delete" then
    generateError ("Type " ++ templateType ast.type ++ " not allowed")
  else if longerThan 0 ast.join || longerThan 1 ast.from_ then
    generateError "Joins not allowed"
  else
    { error := false, message := none }

/-- Lines 39-47. The argument may be a falsy value (none). -/
def checkSQL (parsed : Option AST) : Result :=
  match parsed with
  | none => generateError "Malformed query"
  | some p =>
    match p.select with
    | none => generateError "Malformed query"
    | some sel =>
      if sel.length > 0 ∧ p.from_.isSome then
        { error := false, message := none }
      else
        generateError "Malformed query"

/-- Lines 49-58. -/
def obtainASTFromSQL (env : Env) (sql : String) : ASTResult :=
  let ast := env.sql2ast sql
  if !ast.status then
    { error := true, message := some "Malformed query", ast := none }
  else
    { error := false, message := none, ast := ast.value }

/-- The test of line 74: the caught value is truthy and its statusCode is
the number 404. -/
def isNotFound : Caught → Bool
  | some err => decide (err.statusCode = some 404)
  | none => false

/-- The try block of obtainGeoStore, lines 62-71: the request, then the
deserializer; a truthy geostore is returned, a falsy one falls off the end of
the function, which returns undefined (none). -/
def obtainGeoStore.attempt (env : Env) (id : String) : Except Caught (Option Geostore) := do
  let result ← env.requestToMicroservice
    { uri := env.encodeURI ("/geostore/" ++ id), method := "GET", json := true }
  let geostore ← env.deserialize result
  match geostore with
  | some g => pure (some g)
  | none => pure none

/-- Lines 60-79. -/
def obtainGeoStore (env : Env) (id : String) : Except Thrown (Option Geostore) :=
  match obtainGeoStore.attempt env id with
  | .ok geostore => .ok geostore
  | .error err =>
    if isNotFound err then
      .error (.error "Geostore not found")
    else
      .error (.error "Error obtaining geostore")

/-- The read geostore.geojson.features[0].geometry of line 103: a property
read on undefined raises a TypeError. -/
def geometryOf (geostore : Option Geostore) : Except Thrown Geometry :=
  match geostore with
  | none => .error .typeError
  | some g =>
    match g.geojson with
    | none => .error .typeError
    | some gj =>
      match gj.features with
      | none => .error .typeError
      | some [] => .error .typeError
      | some (f :: _) => .ok f.geometry

/-- The constant intersect of lines 92-113, for the geometry read at
line 103. -/
def intersect (env : Env) (geometry : Geometry) : Node :=
  .function "ST_INTERSECTS"
    [ .function "ST_SetSRID"
        [ .function "ST_GeomFromGeoJSON" [ .string (env.stringify geometry) ],
          .number 4326 ],
      .literal "the_geom" ]

/-- The test of line 87: a geostore id that is present and not the empty
string. -/
def hasGeostore (data : Data) : Bool :=
  match data.geostore with
  | some id => decide (id ≠ "")
  | none => false

/-- Lines 87-123 of sql2SQL: the value of parsed at line 124, or what was
raised on the way. -/
def sql2SQL.inject (env : Env) (data : Data) (parsed : AST) : Except Thrown AST :=
  match data.geostore with
  | none => .ok parsed
  | some id =>
    if id ≠ "" then do
      let geostore ← obtainGeoStore env id
      let geometry ← geometryOf geostore
      let intersect := intersect env geometry
      match parsed.where_ with
      | some w => pure { parsed with where_ := some (.conditional "and" intersect w) }
      | none => pure parsed
    else
      .ok parsed

/-- Lines 81-134. -/
def sql2SQL (env : Env) (data : Data) : Except Thrown Outcome :=
  match env.toJSON data.sql with
  | none => .ok (.failure (generateError "Malformed query"))
  | some parsed =>
    match sql2SQL.inject env data parsed with
    | .error e => .error e
    | .ok parsed =>
      let result := checkSQL (some parsed)
      if result.error then
        .ok (.failure result)
      else
        .ok (.converted (env.toSQL parsed) parsed)

/-! ## The calls to the collaborators -/

/-- A call sql2SQL makes to a collaborator: the parser (line 83), the
microservice client (line 62), the deserializer (line 68), the serializer
(line 131). -/
inductive Call where
  | toJSON (sql : String)
  | requestToMicroservice (options : RequestOptions)
  | deserialize (result : Response)
  | toSQL (parsed : AST)

/-- The calls of obtainGeoStore, in order: the request (line 62), and the
deserializer (line 68) when the request returned. -/
def obtainGeoStore.calls (env : Env) (id : String) : List Call :=
  match env.requestToMicroservice
      { uri := env.encodeURI ("/geostore/" ++ id), method := "GET", json := true } with
  | .error _ =>
    [.requestToMicroservice
      { uri := env.encodeURI ("/geostore/" ++ id), method := "GET", json := true }]
  | .ok result =>
    [.requestToMicroservice
      { uri := env.encodeURI ("/geostore/" ++ id), method := "GET", json := true },
     .deserialize result]

/-- The calls of lines 87-123: those of obtainGeoStore, when the test of
line 87 passes. -/
def sql2SQL.injectCalls (env : Env) (data : Data) : List Call :=
  match data.geostore with
  | none => []
  | some id => if id ≠ "" then obtainGeoStore.calls env id else []

/-- The calls of sql2SQL, in order: the parser; after a truthy parse the
calls of lines 87-123; and the serializer when nothing was raised and
checkSQL accepted the tree (line 131). -/
def sql2SQL.calls (env : Env) (data : Data) : List Call :=
  match env.toJSON data.sql with
  | none => [.toJSON data.sql]
  | some parsed =>
    .toJSON data.sql :: (sql2SQL.injectCalls env data ++
      match sql2SQL.inject env data parsed with
      | .error _ => []
      | .ok final => if (checkSQL (some final)).error then [] else [.toSQL final])

/-! ## A concrete environment

A small serializer and a table-driven parser, used to run the service on
explicit requests. -/

mutual
/-- Prints a where tree the way json2sql does: a literal bare, a string in
single quotes. -/
def Node.toSQL : Node → String
  | .function v args => v ++ "(" ++ Node.listToSQL args ++ ")"
  | .string v => "'" ++ v ++ "'"
  | .number n => toString n
  | .literal v => v
  | .conditional v l r => l.toSQL ++ " " ++ v ++ " " ++ r.toSQL
  | .operator v l r => l.toSQL ++ " " ++ v ++ " " ++ r.toSQL
/-- Prints an argument list, separated by commas. -/
def Node.listToSQL : List Node → String
  | [] => ""
  | [x] => x.toSQL
  | x :: y :: rest => x.toSQL ++ ", " ++ Node.listToSQL (y :: rest)
end

/-- The where clause of the sample serializer. -/
def sampleWhere : Option Node → String
  | some w => " WHERE " ++ w.toSQL
  | none => ""

/-- The join clause of the sample serializer. -/
def sampleJoin : Option (List String) → String
  | some (j :: _) => " JOIN " ++ j
  | _ => ""

/-- A sample serializer. -/
def sampleToSQL (ast : AST) : String :=
  "SELECT " ++ Node.listToSQL (ast.select.getD []) ++ " FROM "
    ++ ", ".intercalate (ast.from_.getD []) ++ sampleJoin ast.join ++ sampleWhere ast.where_

/-- The tree the parser of sql2SQL yields for SELECT * FROM table1: it has
no type and no join field. -/
def table1AST : AST :=
  { type := .undefined, select := some [.literal "*"], from_ := some ["table1"],
    join := none, where_ := none }

/-- The predicate x = 1. -/
def xEqOne : Node := .operator "=" (.literal "x") (.number 1)

/-- The tree the parser of sql2SQL yields for SELECT * FROM t WHERE x = 1. -/
def filteredAST : AST :=
  { type := .undefined, select := some [.literal "*"], from_ := some ["t"],
    join := none, where_ := some xEqOne }

/-- The tree simpleSqlParser.sql2ast yields for
SELECT * FROM a JOIN b ON a.id=b.id: it has a type and a join list. -/
def joinAST : AST :=
  { type := .string "select", select := some [.literal "*"], from_ := some ["a"],
    join := some ["b"], where_ := none }

/-- A tree of an unsupported statement type with an empty source list. -/
def insertAST : AST :=
  { type := .string "insert", select := some [.literal "*"], from_ := some [],
    join := none, where_ := none }

/-- The empty tree: a truthy object with none of the fields. -/
def emptyAST : AST :=
  { type := .undefined, select := none, from_ := none, join := none, where_ := none }

/-- The tree simpleSqlParser.sql2ast yields for SELECT * FROM table1. -/
def selectAST : AST :=
  { type := .string "select", select := some [.literal "*"], from_ := some ["table1"],
    join := some [], where_ := none }

/-- A sample of the parser of sql2SQL: it knows two texts, and yields the
empty tree, which is truthy, for a text it cannot parse. -/
def sampleToJSON (sql : String) : Option AST :=
  if sql = "SELECT * FROM table1" then some table1AST
  else if sql = "SELECT * FROM t WHERE x = 1" then some filteredAST
  else some emptyAST

/-- A sample of simpleSqlParser.sql2ast: status false for a text it cannot
parse. -/
def sampleSql2ast (sql : String) : Sql2ast :=
  if sql = "SELECT * FROM table1" then { status := true, value := some selectAST }
  else if sql = "SELECT * FROM a JOIN b ON a.id=b.id" then
    { status := true, value := some joinAST }
  else { status := false, value := none }

/-- A polygon. -/
def sampleGeometry : Geometry :=
  .obj [("type", .str "Polygon"), ("coordinates", .arr [])]

/-- A geostore with one feature. -/
def sampleGeostore : Geostore :=
  { geojson := some { features := some [{ geometry := sampleGeometry }] } }

/-- A sample microservice: the geostore abc123 exists, the geostore down
fails without a status code, every other one is not found. -/
def sampleRequest (options : RequestOptions) : Except Caught Response :=
  if options.uri = "/geostore/abc123" then .ok "abc123"
  else if options.uri = "/geostore/down" then .error (some { statusCode := none })
  else .error (some { statusCode := some 404 })

/-- A sample environment. -/
def sampleEnv : Env :=
  { toJSON := sampleToJSON
    toSQL := sampleToSQL
    sql2ast := sampleSql2ast
    encodeURI := fun uri => uri
    requestToMicroservice := sampleRequest
    deserialize := fun _ => .ok (some sampleGeostore)
    stringify := fun _ => "\x7b\"type\":\"Polygon\",\"coordinates\":[]\x7d" }

/-- A geostore whose feature collection is empty. -/
def noFeatureGeostore : Geostore :=
  { geojson := some { features := some [] } }

/-- The sample environment with a service whose geostores have no feature. -/
def noFeatureEnv : Env :=
  { sampleEnv with deserialize := fun _ => .ok (some noFeatureGeostore) }

/-- A tree of an unsupported statement type that also has a join and two
sources. -/
def insertJoinAST : AST :=
  { type := .string "insert", select := some [.literal "*"], from_ := some ["a", "b"],
    join := some ["c"], where_ := none }

/-! ## Auxiliary facts -/

theorem type_message_ne_malformed (t : String) :
    "Type " ++ t ++ " not allowed" ≠ "Malformed query" := by
  intro h
  have h2 := congrArg String.data h
  simp [String.data_append] at h2

theorem checkSQL_error_eq (parsed : Option AST) (h : (checkSQL parsed).error = true) :
    checkSQL parsed = generateError "Malformed query" := by
  unfold checkSQL at h ⊢
  split
  · rfl
  · split
    · rfl
    · split
      · rename_i hs hc
        simp [hs, hc] at h
      · rfl

theorem correctSQL_ne_malformed (ast : AST) :
    correctSQL ast ≠ generateError "Malformed query" := by
  unfold correctSQL
  split
  · intro h
    simp only [generateError, Result.mk.injEq, Option.some.injEq, true_and] at h
    exact type_message_ne_malformed _ h
  · split
    · simp [generateError]
    · simp [generateError]

theorem inject_no_geostore (env : Env) (data : Data) (parsed : AST)
    (h : hasGeostore data = false) : sql2SQL.inject env data parsed = .ok parsed := by
  unfold sql2SQL.inject
  unfold hasGeostore at h
  split
  · rfl
  · rename_i id hid
    simp only [hid, decide_eq_false_iff_not, ne_eq, not_not] at h
    simp [h]

theorem inject_with_geostore (env : Env) (data : Data) (parsed : AST) (id : String)
    (gs : Option Geostore) (G : Geometry) (hid : data.geostore = some id) (hne : id ≠ "")
    (hfetch : obtainGeoStore env id = .ok gs) (hgeom : geometryOf gs = .ok G) :
    sql2SQL.inject env data parsed =
      .ok (match parsed.where_ with
        | some w => { parsed with where_ := some (.conditional "and" (intersect env G) w) }
        | none => parsed) := by
  unfold sql2SQL.inject
  simp only [hid, hne, ne_eq, not_false_eq_true, if_true, hfetch, bind, Except.bind, hgeom]
  cases parsed.where_ <;> rfl

theorem sql2SQL_of_inject (env : Env) (data : Data) (parsed final : AST)
    (hparse : env.toJSON data.sql = some parsed)
    (hinj : sql2SQL.inject env data parsed = .ok final) :
    sql2SQL env data =
      .ok (if (checkSQL (some final)).error then .failure (generateError "Malformed query")
        else .converted (env.toSQL final) final) := by
  unfold sql2SQL
  simp only [hparse, hinj]
  by_cases hc : (checkSQL (some final)).error = true
  · simp only [hc, if_true]
    rw [checkSQL_error_eq _ hc]
  · simp [hc]

/-! ## The claims -/

/-- C1, at the request SELECT * FROM table1 with the geostore abc123: the fetch
succeeds and the parsed tree has no where predicate, yet the final tree still
has none (it is the parsed tree unchanged, and is not the spatial predicate),
and the SQL returned has no WHERE clause. Line 115 has no else branch. -/
theorem sql2SQL_no_where_drops_geostore :
    sampleEnv.toJSON "SELECT * FROM table1" = some table1AST ∧
    table1AST.where_ = none ∧
    obtainGeoStore sampleEnv "abc123" = .ok (some sampleGeostore) ∧
    geometryOf (some sampleGeostore) = .ok sampleGeometry ∧
    sql2SQL.inject sampleEnv ⟨"SELECT * FROM table1", some "abc123"⟩ table1AST
      = .ok table1AST ∧
    table1AST.where_ ≠ some (intersect sampleEnv sampleGeometry) ∧
    sql2SQL sampleEnv ⟨"SELECT * FROM table1", some "abc123"⟩
      = .ok (.converted "SELECT * FROM table1" table1AST) := by
  refine ⟨rfl, rfl, rfl, rfl, rfl, ?_, rfl⟩
  simp [table1AST]

/-- C2 as stated fails: the tree the parser yields for SELECT * FROM table1
has no type field, so correctSQL rejects it with Type undefined not allowed,
and sql2SQL returns the rewritten SQL for it, not that error. -/
theorem sql2SQL_shape_not_checked :
    sampleEnv.toJSON "SELECT * FROM table1" = some table1AST ∧
    correctSQL table1AST = { error := true, message := some "Type undefined not allowed" } ∧
    sql2SQL sampleEnv ⟨"SELECT * FROM table1", none⟩
      = .ok (.converted "SELECT * FROM table1" table1AST) ∧
    sql2SQL sampleEnv ⟨"SELECT * FROM table1", none⟩
      ≠ .ok (.failure (correctSQL table1AST)) := by
  refine ⟨rfl, rfl, rfl, ?_⟩
  intro h
  have h2 : sql2SQL sampleEnv ⟨"SELECT * FROM table1", none⟩
      = .ok (.converted "SELECT * FROM table1" table1AST) := rfl
  rw [h2] at h
  simp at h

/-- C2, amended: sql2SQL does not run the shape check. For a request whose
parsed tree is rejected by correctSQL, sql2SQL never returns that shape error:
whatever it returns is the Malformed query error or the rewritten SQL of a
final tree that passes checkSQL; and without a geostore id it does return,
the rewritten SQL of the parsed tree exactly when checkSQL accepts that
tree. -/
theorem sql2SQL_skips_shape_check (env : Env) (data : Data) (ast : AST)
    (hparse : env.toJSON data.sql = some ast)
    (hshape : (correctSQL ast).error = true) :
    (∀ o, sql2SQL env data = .ok o →
      o ≠ .failure (correctSQL ast) ∧
      (o = .failure (generateError "Malformed query") ∨
        ∃ final, o = .converted (env.toSQL final) final ∧
          (checkSQL (some final)).error = false)) ∧
    (hasGeostore data = false →
      sql2SQL env data =
        .ok (if (checkSQL (some ast)).error then .failure (generateError "Malformed query")
          else .converted (env.toSQL ast) ast)) := by
  have _ := hshape
  constructor
  · intro o ho
    unfold sql2SQL at ho
    simp only [hparse] at ho
    cases hinj : sql2SQL.inject env data ast with
    | error e => simp [hinj] at ho
    | ok final =>
      simp only [hinj] at ho
      by_cases hc : (checkSQL (some final)).error = true
      · simp only [hc, if_true, Except.ok.injEq] at ho
        rw [checkSQL_error_eq _ hc] at ho
        subst ho
        refine ⟨?_, Or.inl rfl⟩
        intro h
        simp only [Outcome.failure.injEq] at h
        exact correctSQL_ne_malformed ast h.symm
      · simp only [hc, Bool.false_eq_true, if_false, Except.ok.injEq] at ho
        subst ho
        refine ⟨by simp, Or.inr ⟨final, rfl, by simpa using hc⟩⟩
  · intro hg
    exact sql2SQL_of_inject env data ast ast hparse (inject_no_geostore env data ast hg)

/-- Witness of C2 amended, at SELECT * FROM table1, whose tree the shape
check rejects. -/
theorem sql2SQL_skips_shape_check_witness :
    (∀ o, sql2SQL sampleEnv ⟨"SELECT * FROM table1", none⟩ = .ok o →
      o ≠ .failure (correctSQL table1AST) ∧
      (o = .failure (generateError "Malformed query") ∨
        ∃ final, o = .converted (sampleEnv.toSQL final) final ∧
          (checkSQL (some final)).error = false)) ∧
    (hasGeostore ⟨"SELECT * FROM table1", none⟩ = false →
      sql2SQL sampleEnv ⟨"SELECT * FROM table1", none⟩ =
        .ok (if (checkSQL (some table1AST)).error then
            .failure (generateError "Malformed query")
          else .converted (sampleEnv.toSQL table1AST) table1AST)) :=
  sql2SQL_skips_shape_check sampleEnv ⟨"SELECT * FROM table1", none⟩ table1AST rfl rfl

/-- C3: when the request carries a geostore id, the fetch returns a geostore
whose first feature has the geometry G, and the parsed tree has the where
predicate P, the tree after injection is the parsed tree with its where
predicate replaced by the conditional node with operator and, left operand
the spatial predicate built from G and right operand P unchanged; unless the
two operands coincide it is not the node with the operands swapped; and
sql2SQL checks and serializes exactly that tree. -/
theorem sql2SQL_inject_and_left (env : Env) (data : Data) (ast : AST) (id : String)
    (gs : Option Geostore) (G : Geometry) (P : Node)
    (hparse : env.toJSON data.sql = some ast)
    (hid : data.geostore = some id) (hne : id ≠ "")
    (hfetch : obtainGeoStore env id = .ok gs) (hgeom : geometryOf gs = .ok G)
    (hwhere : ast.where_ = some P) :
    sql2SQL.inject env data ast
      = .ok { ast with where_ := some (.conditional "and" (intersect env G) P) } ∧
    (intersect env G ≠ P →
      sql2SQL.inject env data ast
        ≠ .ok { ast with where_ := some (.conditional "and" P (intersect env G)) }) ∧
    sql2SQL env data =
      .ok (if (checkSQL (some ast)).error then .failure (generateError "Malformed query")
        else .converted
          (env.toSQL { ast with where_ := some (.conditional "and" (intersect env G) P) })
          { ast with where_ := some (.conditional "and" (intersect env G) P) }) := by
  have hinj : sql2SQL.inject env data ast
      = .ok { ast with where_ := some (.conditional "and" (intersect env G) P) } := by
    rw [inject_with_geostore env data ast id gs G hid hne hfetch hgeom, hwhere]
  refine ⟨hinj, ?_, ?_⟩
  · intro hdiff h
    rw [hinj] at h
    simp only [Except.ok.injEq, AST.mk.injEq, Option.some.injEq, Node.conditional.injEq,
      true_and] at h
    exact hdiff h.1
  · rw [sql2SQL_of_inject env data ast _ hparse hinj]
    rfl

/-- Witness of C3, at SELECT * FROM t WHERE x = 1 with the geostore abc123. -/
theorem sql2SQL_inject_and_left_witness :
    sql2SQL.inject sampleEnv ⟨"SELECT * FROM t WHERE x = 1", some "abc123"⟩ filteredAST
      = .ok { filteredAST with
          where_ := some (.conditional "and" (intersect sampleEnv sampleGeometry) xEqOne) } ∧
    (intersect sampleEnv sampleGeometry ≠ xEqOne →
      sql2SQL.inject sampleEnv ⟨"SELECT * FROM t WHERE x = 1", some "abc123"⟩ filteredAST
        ≠ .ok { filteredAST with
            where_ := some (.conditional "and" xEqOne (intersect sampleEnv sampleGeometry)) }) ∧
    sql2SQL sampleEnv ⟨"SELECT * FROM t WHERE x = 1", some "abc123"⟩ =
      .ok (if (checkSQL (some filteredAST)).error then
          .failure (generateError "Malformed query")
        else .converted
          (sampleEnv.toSQL { filteredAST with
            where_ := some (.conditional "and" (intersect sampleEnv sampleGeometry) xEqOne) })
          { filteredAST with
            where_ := some (.conditional "and" (intersect sampleEnv sampleGeometry) xEqOne) }) :=
  sql2SQL_inject_and_left sampleEnv ⟨"SELECT * FROM t WHERE x = 1", some "abc123"⟩ filteredAST
    "abc123" (some sampleGeostore) sampleGeometry xEqOne rfl rfl (by decide) rfl rfl rfl

/-- C4: for a fetched geostore whose first feature is f, the spatial
predicate sql2SQL builds is the function call ST_INTERSECTS with exactly two
arguments: the function call ST_SetSRID of the function call
ST_GeomFromGeoJSON, on the single string node holding the JSON text of
f.geometry, and the number 4326; then the node the_geom, whose type is literal
(a bare column name) and not string. -/
theorem intersect_structure (env : Env) (g : Geostore) (gj : GeoJSON) (f : Feature)
    (rest : List Feature) (hgj : g.geojson = some gj) (hf : gj.features = some (f :: rest)) :
    ∃ inner mid col : Node,
      (geometryOf (some g)).map (intersect env) = .ok (.function "ST_INTERSECTS" [mid, col]) ∧
      mid = .function "ST_SetSRID" [inner, .number 4326] ∧
      inner = .function "ST_GeomFromGeoJSON" [.string (env.stringify f.geometry)] ∧
      col = .literal "the_geom" ∧ col.type = "literal" ∧ col.type ≠ "string" := by
  refine ⟨_, _, _, ?_, rfl, rfl, rfl, rfl, by decide⟩
  simp only [geometryOf, hgj, hf]
  rfl

/-- Witness of C4, at the sample geostore. -/
theorem intersect_structure_witness :
    ∃ inner mid col : Node,
      (geometryOf (some sampleGeostore)).map (intersect sampleEnv)
        = .ok (.function "ST_INTERSECTS" [mid, col]) ∧
      mid = .function "ST_SetSRID" [inner, .number 4326] ∧
      inner = .function "ST_GeomFromGeoJSON"
        [.string (sampleEnv.stringify (Feature.mk sampleGeometry).geometry)] ∧
      col = .literal "the_geom" ∧ col.type = "literal" ∧ col.type ≠ "string" :=
  intersect_structure sampleEnv sampleGeostore ⟨some [⟨sampleGeometry⟩]⟩ ⟨sampleGeometry⟩ []
    rfl rfl

/-- C5: for a tree whose type is neither select nor delete, correctSQL
returns an error object (error true) whose message is Type, the type as the
template literal prints it, not allowed: the string itself for a string type,
null for a null type, undefined for an absent type. -/
theorem correctSQL_unsupported_type (ast : AST)
    (hs : ast.type ≠ .string "select") (hd : ast.type ≠ .string "delete") :
    (correctSQL ast).error = true ∧
    (∀ t, ast.type = .string t →
      correctSQL ast = { error := true, message := some ("Type " ++ t ++ " not allowed") }) ∧
    (ast.type = .null →
      correctSQL ast = { error := true, message := some "Type null not allowed" }) ∧
    (ast.type = .undefined →
      correctSQL ast = { error := true, message := some "Type undefined not allowed" }) := by
  have h : correctSQL ast
      = { error := true, message := some ("Type " ++ templateType ast.type ++ " not allowed") } := by
    unfold correctSQL
    rw [if_pos ⟨hs, hd⟩]
    rfl
  refine ⟨by rw [h], ?_, ?_, ?_⟩
  · intro t ht
    rw [h, ht]
    rfl
  · intro ht
    rw [h, ht]
    rfl
  · intro ht
    rw [h, ht]
    rfl

/-- Witness of C5, at a tree of type insert. -/
theorem correctSQL_unsupported_type_witness :
    (correctSQL insertAST).error = true ∧
    (∀ t, insertAST.type = .string t →
      correctSQL insertAST
        = { error := true, message := some ("Type " ++ t ++ " not allowed") }) ∧
    (insertAST.type = .null →
      correctSQL insertAST = { error := true, message := some "Type null not allowed" }) ∧
    (insertAST.type = .undefined →
      correctSQL insertAST = { error := true, message := some "Type undefined not allowed" }) :=
  correctSQL_unsupported_type insertAST (by decide) (by decide)

/-- C6: for a tree of type select or delete, a non-empty join list alone, and
a from list of more than one entry alone, each make correctSQL return the
same error object: error true, with the message Joins not allowed. -/
theorem correctSQL_joins_not_allowed (ast : AST)
    (htype : ast.type = .string "select" ∨ ast.type = .string "delete")
    (hshape : (∃ j, ast.join = some j ∧ j ≠ []) ∨ (∃ f, ast.from_ = some f ∧ f.length > 1)) :
    correctSQL ast = { error := true, message := some "Joins not allowed" } ∧
    (correctSQL ast).error = true ∧
    (correctSQL ast).message = some "Joins not allowed" := by
  have hnot : ¬ (ast.type ≠ .string "select" ∧ ast.type ≠ .string "delete") := by
    rintro ⟨h1, h2⟩
    rcases htype with h | h
    · exact h1 h
    · exact h2 h
  have hcond : (longerThan 0 ast.join || longerThan 1 ast.from_) = true := by
    rcases hshape with ⟨j, hj, hne⟩ | ⟨f, hf, hlen⟩
    · have : longerThan 0 ast.join = true := by
        rw [hj]
        simp only [longerThan, gt_iff_lt, decide_eq_true_eq]
        exact List.length_pos.mpr hne
      simp [this]
    · have : longerThan 1 ast.from_ = true := by
        rw [hf]
        simpa [longerThan] using hlen
      simp [this]
  have h : correctSQL ast = { error := true, message := some "Joins not allowed" } := by
    unfold correctSQL
    rw [if_neg hnot, if_pos hcond]
    rfl
  rw [h]
  exact ⟨rfl, rfl, rfl⟩

/-- Witness of C6, at a tree with two sources and no join list: the second
condition alone. -/
theorem correctSQL_joins_not_allowed_witness :
    correctSQL { selectAST with from_ := some ["a", "b"] }
      = { error := true, message := some "Joins not allowed" } ∧
    (correctSQL { selectAST with from_ := some ["a", "b"] }).error = true ∧
    (correctSQL { selectAST with from_ := some ["a", "b"] }).message
      = some "Joins not allowed" :=
  correctSQL_joins_not_allowed { selectAST with from_ := some ["a", "b"] } (Or.inl rfl)
    (Or.inr ⟨["a", "b"], rfl, by decide⟩)

/-- C7: correctSQL returns the success object (error false) exactly when the
type is select or delete, the join list is absent or empty, and the from list
is absent or has at most one entry. -/
theorem correctSQL_success_iff (ast : AST) :
    ((correctSQL ast).error = false ↔
      (ast.type = .string "select" ∨ ast.type = .string "delete") ∧
      (ast.join = none ∨ ast.join = some []) ∧
      (ast.from_ = none ∨ ∃ f, ast.from_ = some f ∧ f.length ≤ 1)) ∧
    ((correctSQL ast).error = false ↔ correctSQL ast = { error := false, message := none }) := by
  have key : (correctSQL ast).error = false ↔
      (ast.type = .string "select" ∨ ast.type = .string "delete") ∧
      (ast.join = none ∨ ast.join = some []) ∧
      (ast.from_ = none ∨ ∃ f, ast.from_ = some f ∧ f.length ≤ 1) := by
    unfold correctSQL
    by_cases ht : ast.type ≠ .string "select" ∧ ast.type ≠ .string "delete"
    · rw [if_pos ht]
      simp only [generateError, Bool.true_eq_false, false_iff, not_and]
      intro h
      rcases h with h | h
      · exact absurd h ht.1
      · exact absurd h ht.2
    · rw [if_neg ht]
      have htype : ast.type = .string "select" ∨ ast.type = .string "delete" := by
        by_contra hc
        exact ht ⟨fun h => hc (Or.inl h), fun h => hc (Or.inr h)⟩
      cases hj : ast.join with
      | none =>
        cases hf : ast.from_ with
        | none => simp [longerThan, htype]
        | some f =>
          by_cases hl : f.length ≤ 1
          · have : ¬ 1 < f.length := by omega
            simp [longerThan, htype, hl, this]
          · have : 1 < f.length := by omega
            simp [longerThan, htype, this, generateError]
      | some j =>
        cases j with
        | nil =>
          cases hf : ast.from_ with
          | none => simp [longerThan, htype]
          | some f =>
            by_cases hl : f.length ≤ 1
            · have : ¬ 1 < f.length := by omega
              simp [longerThan, htype, hl, this]
            · have : 1 < f.length := by omega
              simp [longerThan, htype, this, generateError]
        | cons a t => simp [longerThan, generateError]
  refine ⟨key, ?_⟩
  constructor
  · intro h
    unfold correctSQL at h ⊢
    split
    · rename_i hc
      rw [if_pos hc] at h
      simp [generateError] at h
    · rename_i hc
      rw [if_neg hc] at h
      split
      · rename_i hc2
        rw [if_pos hc2] at h
        simp [generateError] at h
      · rfl
  · intro h
    rw [h]

/-- C8: for a tree whose select list is absent or empty, or whose from list
is null, checkSQL returns the error object with error true and the message
Malformed query; and so it does for a null tree. -/
theorem checkSQL_malformed (ast : AST)
    (h : ast.select = none ∨ ast.select = some [] ∨ ast.from_ = none) :
    checkSQL (some ast) = { error := true, message := some "Malformed query" } ∧
    checkSQL none = { error := true, message := some "Malformed query" } ∧
    (checkSQL (some ast)).error = true ∧ (checkSQL none).error = true := by
  have hast : checkSQL (some ast) = { error := true, message := some "Malformed query" } := by
    unfold checkSQL
    rcases h with h | h | h
    · simp [h, generateError]
    · simp [h, generateError]
    · cases hs : ast.select <;> simp [h, hs, generateError]
  rw [hast]
  exact ⟨rfl, rfl, rfl, rfl⟩

/-- Witness of C8, at a tree with a select list and a null from list. -/
theorem checkSQL_malformed_witness :
    checkSQL (some { table1AST with from_ := none })
      = { error := true, message := some "Malformed query" } ∧
    checkSQL none = { error := true, message := some "Malformed query" } ∧
    (checkSQL (some { table1AST with from_ := none })).error = true ∧
    (checkSQL none).error = true :=
  checkSQL_malformed { table1AST with from_ := none } (Or.inr (Or.inr rfl))

/-- C9: for a tree with a non-empty select list and a non-null from list,
checkSQL returns the success object, whatever the type, the join list, the
where predicate and the length of the from list, the empty one included. -/
theorem checkSQL_success (ast : AST) (sel : List Node) (src : List String)
    (hsel : ast.select = some sel) (hne : sel ≠ []) (hfrom : ast.from_ = some src) :
    checkSQL (some ast) = { error := false, message := none } := by
  have hpos : sel.length > 0 := List.length_pos.mpr hne
  unfold checkSQL
  simp [hsel, hfrom, hpos]

/-- Witness of C9, at a tree of type insert with a present but empty from
list. -/
theorem checkSQL_success_witness :
    checkSQL (some insertAST) = { error := false, message := none } :=
  checkSQL_success insertAST [.literal "*"] [] rfl (by simp) rfl

/-- C10: when the request to the geostore service, or the deserialization of
its response, fails with the caught value err, obtainGeoStore raises Geostore
not found exactly when err carries the status code 404, and raises Error
obtaining geostore for every other failure; the two messages differ. -/
theorem obtainGeoStore_failure (env : Env) (id : String) (err : Caught)
    (hfail :
      env.requestToMicroservice
          { uri := env.encodeURI ("/geostore/" ++ id), method := "GET", json := true }
        = .error err ∨
      ∃ result,
        env.requestToMicroservice
            { uri := env.encodeURI ("/geostore/" ++ id), method := "GET", json := true }
          = .ok result ∧
        env.deserialize result = .error err) :
    (obtainGeoStore env id = .error (.error "Geostore not found") ↔
      ∃ e, err = some e ∧ e.statusCode = some 404) ∧
    ((¬ ∃ e, err = some e ∧ e.statusCode = some 404) →
      obtainGeoStore env id = .error (.error "Error obtaining geostore")) ∧
    "Geostore not found" ≠ "Error obtaining geostore" := by
  have hatt : obtainGeoStore.attempt env id = .error err := by
    unfold obtainGeoStore.attempt
    rcases hfail with h | ⟨result, h1, h2⟩
    · simp only [h]
      rfl
    · simp only [h1, bind, Except.bind, h2]
  have hnf : isNotFound err = true ↔ ∃ e, err = some e ∧ e.statusCode = some 404 := by
    cases err with
    | none => simp [isNotFound]
    | some e => simp [isNotFound]
  have hres : obtainGeoStore env id =
      if isNotFound err then .error (.error "Geostore not found")
      else .error (.error "Error obtaining geostore") := by
    unfold obtainGeoStore
    rw [hatt]
  refine ⟨?_, ?_, by decide⟩
  · rw [hres, ← hnf]
    cases isNotFound err <;> simp
  · intro hno
    rw [hres]
    have : isNotFound err = false := by
      cases hb : isNotFound err
      · rfl
      · exact absurd (hnf.mp hb) hno
    simp [this]

/-- Witness of C10, at a geostore id the sample service does not know: the
request fails with status code 404. -/
theorem obtainGeoStore_failure_witness :
    (obtainGeoStore sampleEnv "missing" = .error (.error "Geostore not found") ↔
      ∃ e, (some { statusCode := some 404 } : Caught) = some e ∧ e.statusCode = some 404) ∧
    ((¬ ∃ e, (some { statusCode := some 404 } : Caught) = some e ∧ e.statusCode = some 404) →
      obtainGeoStore sampleEnv "missing" = .error (.error "Error obtaining geostore")) ∧
    "Geostore not found" ≠ "Error obtaining geostore" :=
  obtainGeoStore_failure sampleEnv "missing" (some { statusCode := some 404 }) (Or.inl rfl)

/-! ## Further auxiliary facts -/

theorem obtainGeoStore_of_failure (env : Env) (id : String) (err : Caught)
    (hfail :
      env.requestToMicroservice
          { uri := env.encodeURI ("/geostore/" ++ id), method := "GET", json := true }
        = .error err ∨
      ∃ result,
        env.requestToMicroservice
            { uri := env.encodeURI ("/geostore/" ++ id), method := "GET", json := true }
          = .ok result ∧
        env.deserialize result = .error err) :
    obtainGeoStore env id =
      .error (.error (if isNotFound err then "Geostore not found"
        else "Error obtaining geostore")) := by
  have hatt : obtainGeoStore.attempt env id = .error err := by
    unfold obtainGeoStore.attempt
    rcases hfail with h | ⟨result, h1, h2⟩
    · simp only [h]
      rfl
    · simp only [h1, bind, Except.bind, h2]
  unfold obtainGeoStore
  rw [hatt]
  cases h : isNotFound err <;> simp [h]

theorem inject_of_fetch_error (env : Env) (data : Data) (parsed : AST) (id : String)
    (e : Thrown) (hid : data.geostore = some id) (hne : id ≠ "")
    (hfetch : obtainGeoStore env id = .error e) :
    sql2SQL.inject env data parsed = .error e := by
  unfold sql2SQL.inject
  simp only [hid, hne, ne_eq, not_false_eq_true, if_true, hfetch, bind, Except.bind]

theorem type_message_ne_joins (t : String) :
    "Type " ++ t ++ " not allowed" ≠ "Joins not allowed" := by
  intro h
  have h2 := congrArg String.data h
  simp [String.data_append] at h2

theorem checkSQL_of_inject (env : Env) (data : Data) (ast final : AST)
    (hinj : sql2SQL.inject env data ast = .ok final) :
    checkSQL (some final) = checkSQL (some ast) := by
  have hfields : final.select = ast.select ∧ final.from_ = ast.from_ := by
    unfold sql2SQL.inject at hinj
    cases hgeo : data.geostore with
    | none =>
      simp only [hgeo, Except.ok.injEq] at hinj
      subst hinj
      exact ⟨rfl, rfl⟩
    | some id =>
      simp only [hgeo] at hinj
      by_cases hne : id = ""
      · simp only [hne, ne_eq, not_true_eq_false, if_false, Except.ok.injEq] at hinj
        subst hinj
        exact ⟨rfl, rfl⟩
      · simp only [hne, ne_eq, not_false_eq_true, if_true] at hinj
        cases hfetch : obtainGeoStore env id with
        | error e => simp [hfetch, bind, Except.bind] at hinj
        | ok gs =>
          cases hgeom : geometryOf gs with
          | error e => simp [hfetch, hgeom, bind, Except.bind] at hinj
          | ok G =>
            simp only [hfetch, hgeom, bind, Except.bind] at hinj
            cases hw : ast.where_ with
            | none =>
              simp only [hw, pure, Except.pure, Except.ok.injEq] at hinj
              subst hinj
              exact ⟨rfl, rfl⟩
            | some w =>
              simp only [hw, pure, Except.pure, Except.ok.injEq] at hinj
              subst hinj
              exact ⟨rfl, rfl⟩
  unfold checkSQL
  simp only [hfields.1, hfields.2]

theorem injectCalls_no_geostore (env : Env) (data : Data) (h : hasGeostore data = false) :
    sql2SQL.injectCalls env data = [] := by
  unfold sql2SQL.injectCalls
  unfold hasGeostore at h
  split
  · rfl
  · rename_i id hid
    simp only [hid, decide_eq_false_iff_not, ne_eq, not_not] at h
    simp [h]

theorem injectCalls_with_geostore (env : Env) (data : Data) (id : String)
    (hid : data.geostore = some id) (hne : id ≠ "") :
    sql2SQL.injectCalls env data = obtainGeoStore.calls env id := by
  unfold sql2SQL.injectCalls
  simp [hid, hne]

theorem obtainGeoStore_calls_shape (env : Env) (id : String) :
    ∃ rest, obtainGeoStore.calls env id =
        .requestToMicroservice
          { uri := env.encodeURI ("/geostore/" ++ id), method := "GET", json := true } :: rest ∧
      ∀ c ∈ rest, ∃ result, c = .deserialize result := by
  unfold obtainGeoStore.calls
  split
  · exact ⟨[], rfl, by simp⟩
  · rename_i result _
    exact ⟨[.deserialize result], rfl, by simp⟩

theorem sql2SQL_of_rejected (env : Env) (data : Data) (ast : AST)
    (hparse : env.toJSON data.sql = some ast)
    (hbad : (checkSQL (some ast)).error = true) :
    sql2SQL env data =
      (match sql2SQL.inject env data ast with
        | .error e => .error e
        | .ok _ => .ok (.failure { error := true, message := some "Malformed query" })) ∧
    sql2SQL.calls env data = .toJSON data.sql :: sql2SQL.injectCalls env data := by
  constructor
  · unfold sql2SQL
    simp only [hparse]
    cases hinj : sql2SQL.inject env data ast with
    | error e => rfl
    | ok final =>
      have hc : (checkSQL (some final)).error = true := by
        rw [checkSQL_of_inject env data ast final hinj]
        exact hbad
      simp only [hc, if_true]
      rw [checkSQL_error_eq _ hc]
      rfl
  · unfold sql2SQL.calls
    simp only [hparse]
    cases hinj : sql2SQL.inject env data ast with
    | error e => simp
    | ok final =>
      have hc : (checkSQL (some final)).error = true := by
        rw [checkSQL_of_inject env data ast final hinj]
        exact hbad
      simp [hc]

/-! ## The claims, continued -/

/-- C11 as stated fails: for SELECT * FROM t WHERE x = 1 with the unknown
geostore missing, the fetch fails with status 404 and sql2SQL raises the
error Geostore not found; it returns no result value, so it does not return
the error object with that message. -/
theorem sql2SQL_fetch_failure_raises :
    sampleEnv.toJSON "SELECT * FROM t WHERE x = 1" = some filteredAST ∧
    obtainGeoStore sampleEnv "missing" = .error (.error "Geostore not found") ∧
    sql2SQL sampleEnv ⟨"SELECT * FROM t WHERE x = 1", some "missing"⟩
      = .error (.error "Geostore not found") ∧
    sql2SQL sampleEnv ⟨"SELECT * FROM t WHERE x = 1", some "missing"⟩
      ≠ .ok (.failure (generateError "Geostore not found")) := by
  refine ⟨rfl, rfl, rfl, ?_⟩
  intro h
  have h2 : sql2SQL sampleEnv ⟨"SELECT * FROM t WHERE x = 1", some "missing"⟩
      = .error (.error "Geostore not found") := rfl
  rw [h2] at h
  simp at h

/-- C11, amended: for a request whose sql parses and whose geostore id is
present and not empty, when the request to the geostore service or the
deserialization fails with the caught value err, sql2SQL raises the error
object with the mapped message (Geostore not found for status 404, Error
obtaining geostore otherwise) and returns no result value. -/
theorem sql2SQL_fetch_failure (env : Env) (data : Data) (ast : AST) (id : String)
    (err : Caught)
    (hparse : env.toJSON data.sql = some ast)
    (hid : data.geostore = some id) (hne : id ≠ "")
    (hfail :
      env.requestToMicroservice
          { uri := env.encodeURI ("/geostore/" ++ id), method := "GET", json := true }
        = .error err ∨
      ∃ result,
        env.requestToMicroservice
            { uri := env.encodeURI ("/geostore/" ++ id), method := "GET", json := true }
          = .ok result ∧
        env.deserialize result = .error err) :
    sql2SQL env data =
      .error (.error (if isNotFound err then "Geostore not found"
        else "Error obtaining geostore")) ∧
    ∀ o, sql2SQL env data ≠ .ok o := by
  have hres : sql2SQL env data =
      .error (.error (if isNotFound err then "Geostore not found"
        else "Error obtaining geostore")) := by
    unfold sql2SQL
    simp only [hparse]
    rw [inject_of_fetch_error env data ast id _ hid hne
      (obtainGeoStore_of_failure env id err hfail)]
  refine ⟨hres, ?_⟩
  intro o h
  rw [hres] at h
  simp at h

/-- Witness of C11 amended, at a geostore whose request fails without a
status code. -/
theorem sql2SQL_fetch_failure_witness :
    sql2SQL sampleEnv ⟨"SELECT * FROM t WHERE x = 1", some "down"⟩ =
      .error (.error (if isNotFound (some { statusCode := none }) then "Geostore not found"
        else "Error obtaining geostore")) ∧
    ∀ o, sql2SQL sampleEnv ⟨"SELECT * FROM t WHERE x = 1", some "down"⟩ ≠ .ok o :=
  sql2SQL_fetch_failure sampleEnv ⟨"SELECT * FROM t WHERE x = 1", some "down"⟩ filteredAST
    "down" (some { statusCode := none }) rfl rfl (by decide) (Or.inl rfl)

/-- C12 as stated fails: for DROP TABLE t the parser yields the empty tree,
which holds no parsed query but is truthy. With the geostore abc123 sql2SQL
then calls the microservice client and the deserializer before it returns
Malformed query, and with the unknown geostore missing it raises Geostore not
found instead of returning Malformed query. -/
theorem sql2SQL_unparsed_fetches :
    sampleEnv.toJSON "DROP TABLE t" = some emptyAST ∧
    checkSQL (some emptyAST) = { error := true, message := some "Malformed query" } ∧
    sql2SQL.calls sampleEnv ⟨"DROP TABLE t", some "abc123"⟩ =
      [.toJSON "DROP TABLE t",
       .requestToMicroservice { uri := "/geostore/abc123", method := "GET", json := true },
       .deserialize "abc123"] ∧
    sql2SQL sampleEnv ⟨"DROP TABLE t", some "abc123"⟩ = .ok (.failure { error := true, message := some "Malformed query" }) ∧
    sql2SQL sampleEnv ⟨"DROP TABLE t", some "missing"⟩
      = .error (.error "Geostore not found") ∧
    sql2SQL sampleEnv ⟨"DROP TABLE t", some "missing"⟩ ≠ .ok (.failure { error := true, message := some "Malformed query" }) := by
  refine ⟨rfl, rfl, rfl, rfl, rfl, ?_⟩
  intro h
  have h2 : sql2SQL sampleEnv ⟨"DROP TABLE t", some "missing"⟩
      = .error (.error "Geostore not found") := rfl
  rw [h2] at h
  simp at h

/-- C12, amended: when the parser yields no usable tree (a falsy value, or a
tree checkSQL rejects, such as the empty tree of a text it cannot parse),
sql2SQL never calls the serializer and every result it returns is the error
object with error true and the message Malformed query. It returns it with
the parser call as its only call when the parser yielded a falsy value or the
request has no geostore id. For a truthy tree and a geostore id it calls the
geometry fetcher first: it raises what the fetch raises, and returns Malformed
query once the fetch and the geometry read have succeeded. -/
theorem sql2SQL_unparsed (env : Env) (data : Data)
    (hbad : (checkSQL (env.toJSON data.sql)).error = true) :
    (∀ o, sql2SQL env data = .ok o → o = .failure { error := true, message := some "Malformed query" }) ∧
    (∀ c ∈ sql2SQL.calls env data, ∀ parsed, c ≠ .toSQL parsed) ∧
    (env.toJSON data.sql = none ∨ hasGeostore data = false →
      sql2SQL env data = .ok (.failure { error := true, message := some "Malformed query" }) ∧
      sql2SQL.calls env data = [.toJSON data.sql]) ∧
    (∀ ast id, env.toJSON data.sql = some ast → data.geostore = some id → id ≠ "" →
      sql2SQL.calls env data = .toJSON data.sql :: obtainGeoStore.calls env id ∧
      (∃ options, Call.requestToMicroservice options ∈ sql2SQL.calls env data) ∧
      (∀ e, obtainGeoStore env id = .error e → sql2SQL env data = .error e) ∧
      (∀ gs G, obtainGeoStore env id = .ok gs → geometryOf gs = .ok G →
        sql2SQL env data = .ok (.failure { error := true, message := some "Malformed query" }))) := by
  cases hparse : env.toJSON data.sql with
  | none =>
    have hres : sql2SQL env data = .ok (.failure { error := true, message := some "Malformed query" }) := by
      unfold sql2SQL
      simp only [hparse]
      rfl
    have hcalls : sql2SQL.calls env data = [.toJSON data.sql] := by
      unfold sql2SQL.calls
      simp only [hparse]
    refine ⟨?_, ?_, fun _ => ⟨hres, hcalls⟩, ?_⟩
    · intro o ho
      rw [hres] at ho
      simp only [Except.ok.injEq] at ho
      exact ho.symm
    · intro c hc parsed hcp
      rw [hcalls, List.mem_singleton] at hc
      rw [hc] at hcp
      exact Call.noConfusion hcp
    · intro ast id h
      simp at h
  | some ast =>
    rw [hparse] at hbad
    obtain ⟨hres, hcalls⟩ := sql2SQL_of_rejected env data ast hparse hbad
    refine ⟨?_, ?_, ?_, ?_⟩
    · intro o ho
      rw [hres] at ho
      cases hinj : sql2SQL.inject env data ast with
      | error e => simp [hinj] at ho
      | ok final =>
        simp only [hinj, Except.ok.injEq] at ho
        exact ho.symm
    · intro c hc parsed hcp
      rw [hcalls, List.mem_cons] at hc
      rcases hc with hc | hc
      · rw [hc] at hcp
        exact Call.noConfusion hcp
      · unfold sql2SQL.injectCalls at hc
        split at hc
        · simp at hc
        · rename_i id _
          split at hc
          · obtain ⟨rest, hshape, hrest⟩ := obtainGeoStore_calls_shape env id
            rw [hshape, List.mem_cons] at hc
            rcases hc with hc | hc
            · rw [hc] at hcp
              exact Call.noConfusion hcp
            · obtain ⟨result, hr⟩ := hrest c hc
              rw [hr] at hcp
              exact Call.noConfusion hcp
          · simp at hc
    · intro h
      rcases h with h | h
      · simp at h
      · rw [hres, hcalls, inject_no_geostore env data ast h,
          injectCalls_no_geostore env data h]
        exact ⟨rfl, rfl⟩
    · intro ast2 id hast hid hne
      simp only [Option.some.injEq] at hast
      subst hast
      have hic := injectCalls_with_geostore env data id hid hne
      refine ⟨by rw [hcalls, hic], ?_, ?_, ?_⟩
      · obtain ⟨rest, hshape, _⟩ := obtainGeoStore_calls_shape env id
        refine ⟨{ uri := env.encodeURI ("/geostore/" ++ id), method := "GET", json := true }, ?_⟩
        rw [hcalls, hic, hshape]
        exact List.mem_cons_of_mem _ (List.mem_cons_self _ _)
      · intro e he
        rw [hres, inject_of_fetch_error env data ast id e hid hne he]
      · intro gs G hgs hG
        rw [hres, inject_with_geostore env data ast id gs G hid hne hgs hG]

/-- Witness of C12 amended, at DROP TABLE t with the geostore abc123. -/
theorem sql2SQL_unparsed_witness :
    (∀ o, sql2SQL sampleEnv ⟨"DROP TABLE t", some "abc123"⟩ = .ok o → o = .failure { error := true, message := some "Malformed query" }) ∧
    (∀ c ∈ sql2SQL.calls sampleEnv ⟨"DROP TABLE t", some "abc123"⟩,
      ∀ parsed, c ≠ .toSQL parsed) ∧
    (sampleEnv.toJSON (Data.mk "DROP TABLE t" (some "abc123")).sql = none ∨
        hasGeostore ⟨"DROP TABLE t", some "abc123"⟩ = false →
      sql2SQL sampleEnv ⟨"DROP TABLE t", some "abc123"⟩ = .ok (.failure { error := true, message := some "Malformed query" }) ∧
      sql2SQL.calls sampleEnv ⟨"DROP TABLE t", some "abc123"⟩
        = [.toJSON (Data.mk "DROP TABLE t" (some "abc123")).sql]) ∧
    (∀ ast id, sampleEnv.toJSON (Data.mk "DROP TABLE t" (some "abc123")).sql = some ast →
      (Data.mk "DROP TABLE t" (some "abc123")).geostore = some id → id ≠ "" →
      sql2SQL.calls sampleEnv ⟨"DROP TABLE t", some "abc123"⟩
        = .toJSON (Data.mk "DROP TABLE t" (some "abc123")).sql
          :: obtainGeoStore.calls sampleEnv id ∧
      (∃ options, Call.requestToMicroservice options
        ∈ sql2SQL.calls sampleEnv ⟨"DROP TABLE t", some "abc123"⟩) ∧
      (∀ e, obtainGeoStore sampleEnv id = .error e →
        sql2SQL sampleEnv ⟨"DROP TABLE t", some "abc123"⟩ = .error e) ∧
      (∀ gs G, obtainGeoStore sampleEnv id = .ok gs → geometryOf gs = .ok G →
        sql2SQL sampleEnv ⟨"DROP TABLE t", some "abc123"⟩ = .ok (.failure { error := true, message := some "Malformed query" }))) :=
  sql2SQL_unparsed sampleEnv ⟨"DROP TABLE t", some "abc123"⟩ rfl

/-- C13: for a parser outcome with the fields status and value,
obtainASTFromSQL returns the error Malformed query exactly when status is
false, and otherwise the object with error false and ast equal to value. -/
theorem obtainASTFromSQL_outcome (env : Env) (sql : String) (status : Bool)
    (value : Option AST) (hparse : env.sql2ast sql = { status := status, value := value }) :
    ((obtainASTFromSQL env sql).error = true ↔ status = false) ∧
    ((obtainASTFromSQL env sql).message = some "Malformed query" ↔ status = false) ∧
    obtainASTFromSQL env sql =
      (if status then { error := false, message := none, ast := value }
        else { error := true, message := some "Malformed query", ast := none }) := by
  unfold obtainASTFromSQL
  simp only [hparse]
  cases status <;> simp

/-- Witness of C13, at a text the sample parser accepts. -/
theorem obtainASTFromSQL_outcome_witness :
    ((obtainASTFromSQL sampleEnv "SELECT * FROM table1").error = true ↔ true = false) ∧
    ((obtainASTFromSQL sampleEnv "SELECT * FROM table1").message = some "Malformed query"
      ↔ true = false) ∧
    obtainASTFromSQL sampleEnv "SELECT * FROM table1" =
      (if true then { error := false, message := none, ast := some selectAST }
        else { error := true, message := some "Malformed query", ast := none }) :=
  obtainASTFromSQL_outcome sampleEnv "SELECT * FROM table1" true (some selectAST) rfl

/-- C14: whenever sql2SQL returns a result, the result is either an error
object (error true, a message, no sql) or the success object whose sql is the
serializer applied to the tree it carries. When the parser yielded no tree it
is the error Malformed query; otherwise, for the tree final left by lines
87-123, it is the success object of final exactly when checkSQL accepts
final, and the error Malformed query when checkSQL rejects it. -/
theorem sql2SQL_result_shapes (env : Env) (data : Data) (o : Outcome)
    (h : sql2SQL env data = .ok o) :
    ((∃ m, o = .failure { error := true, message := some m }) ∨
      (∃ final, o = .converted (env.toSQL final) final)) ∧
    ((env.toJSON data.sql = none ∧ o = .failure (generateError "Malformed query")) ∨
      ∃ parsed final, env.toJSON data.sql = some parsed ∧
        sql2SQL.inject env data parsed = .ok final ∧
        (((checkSQL (some final)).error = true ∧
            o = .failure (generateError "Malformed query")) ∨
          ((checkSQL (some final)).error = false ∧
            o = .converted (env.toSQL final) final))) := by
  unfold sql2SQL at h
  cases hparse : env.toJSON data.sql with
  | none =>
    simp only [hparse, Except.ok.injEq] at h
    subst h
    exact ⟨Or.inl ⟨_, rfl⟩, Or.inl ⟨rfl, rfl⟩⟩
  | some parsed =>
    simp only [hparse] at h
    cases hinj : sql2SQL.inject env data parsed with
    | error e => simp [hinj] at h
    | ok final =>
      simp only [hinj] at h
      by_cases hc : (checkSQL (some final)).error = true
      · simp only [hc, if_true, Except.ok.injEq] at h
        rw [checkSQL_error_eq _ hc] at h
        subst h
        exact ⟨Or.inl ⟨_, rfl⟩, Or.inr ⟨parsed, final, rfl, hinj, Or.inl ⟨hc, rfl⟩⟩⟩
      · simp only [hc, Bool.false_eq_true, if_false, Except.ok.injEq] at h
        subst h
        exact ⟨Or.inr ⟨final, rfl⟩,
          Or.inr ⟨parsed, final, rfl, hinj, Or.inr ⟨by simpa using hc, rfl⟩⟩⟩

/-- Witness of C14, at SELECT * FROM table1 without a geostore. -/
theorem sql2SQL_result_shapes_witness :
    ((∃ m, Outcome.converted "SELECT * FROM table1" table1AST
        = .failure { error := true, message := some m }) ∨
      (∃ final, Outcome.converted "SELECT * FROM table1" table1AST
        = .converted (sampleEnv.toSQL final) final)) ∧
    ((sampleEnv.toJSON (Data.mk "SELECT * FROM table1" none).sql = none ∧
        Outcome.converted "SELECT * FROM table1" table1AST
          = .failure (generateError "Malformed query")) ∨
      ∃ parsed final, sampleEnv.toJSON (Data.mk "SELECT * FROM table1" none).sql = some parsed ∧
        sql2SQL.inject sampleEnv ⟨"SELECT * FROM table1", none⟩ parsed = .ok final ∧
        (((checkSQL (some final)).error = true ∧
            Outcome.converted "SELECT * FROM table1" table1AST
              = .failure (generateError "Malformed query")) ∨
          ((checkSQL (some final)).error = false ∧
            Outcome.converted "SELECT * FROM table1" table1AST
              = .converted (sampleEnv.toSQL final) final))) :=
  sql2SQL_result_shapes sampleEnv ⟨"SELECT * FROM table1", none⟩
    (.converted "SELECT * FROM table1" table1AST) rfl

/-- C15: for a request without a geostore id (absent, or the empty string,
which is falsy), lines 87-123 leave the parsed tree unchanged, where predicate
included; that same tree is the one checkSQL checks and the one serialized
and returned; and sql2SQL calls the parser, then the serializer when checkSQL
accepts, and never the microservice client nor the deserializer. -/
theorem sql2SQL_without_geostore (env : Env) (data : Data) (ast : AST)
    (hgeo : hasGeostore data = false) (hparse : env.toJSON data.sql = some ast) :
    sql2SQL.inject env data ast = .ok ast ∧
    sql2SQL env data =
      .ok (if (checkSQL (some ast)).error then .failure (checkSQL (some ast))
        else .converted (env.toSQL ast) ast) ∧
    sql2SQL.calls env data =
      .toJSON data.sql :: (if (checkSQL (some ast)).error then [] else [.toSQL ast]) ∧
    ∀ c ∈ sql2SQL.calls env data,
      (∀ options, c ≠ .requestToMicroservice options) ∧ (∀ result, c ≠ .deserialize result) := by
  have hinj := inject_no_geostore env data ast hgeo
  have hnone : sql2SQL.injectCalls env data = [] := by
    unfold sql2SQL.injectCalls
    unfold hasGeostore at hgeo
    split
    · rfl
    · rename_i id hid
      simp only [hid, decide_eq_false_iff_not, ne_eq, not_not] at hgeo
      simp [hgeo]
  have hcalls : sql2SQL.calls env data =
      .toJSON data.sql :: (if (checkSQL (some ast)).error then [] else [.toSQL ast]) := by
    unfold sql2SQL.calls
    simp only [hparse, hinj, hnone, List.nil_append]
  refine ⟨hinj, ?_, hcalls, ?_⟩
  · unfold sql2SQL
    simp only [hparse, hinj]
    cases (checkSQL (some ast)).error <;> rfl
  · intro c hc
    rw [hcalls] at hc
    cases hb : (checkSQL (some ast)).error
    · simp only [hb, Bool.false_eq_true, if_false, List.mem_cons, List.mem_singleton,
        List.not_mem_nil, or_false] at hc
      rcases hc with hc | hc <;> subst hc <;> exact ⟨fun _ h => Call.noConfusion h, fun _ h => Call.noConfusion h⟩
    · simp only [hb, if_true, List.mem_cons, List.not_mem_nil, or_false] at hc
      subst hc
      exact ⟨fun _ h => Call.noConfusion h, fun _ h => Call.noConfusion h⟩

/-- Witness of C15, at SELECT * FROM t WHERE x = 1 without a geostore. -/
theorem sql2SQL_without_geostore_witness :
    sql2SQL.inject sampleEnv ⟨"SELECT * FROM t WHERE x = 1", none⟩ filteredAST
      = .ok filteredAST ∧
    sql2SQL sampleEnv ⟨"SELECT * FROM t WHERE x = 1", none⟩ =
      .ok (if (checkSQL (some filteredAST)).error then .failure (checkSQL (some filteredAST))
        else .converted (sampleEnv.toSQL filteredAST) filteredAST) ∧
    sql2SQL.calls sampleEnv ⟨"SELECT * FROM t WHERE x = 1", none⟩ =
      .toJSON (Data.mk "SELECT * FROM t WHERE x = 1" none).sql ::
        (if (checkSQL (some filteredAST)).error then [] else [.toSQL filteredAST]) ∧
    ∀ c ∈ sql2SQL.calls sampleEnv ⟨"SELECT * FROM t WHERE x = 1", none⟩,
      (∀ options, c ≠ .requestToMicroservice options) ∧ (∀ result, c ≠ .deserialize result) :=
  sql2SQL_without_geostore sampleEnv ⟨"SELECT * FROM t WHERE x = 1", none⟩ filteredAST rfl rfl

/-- C16 as stated fails: for the geostore abc123 of a service whose geostores
have an empty feature collection, obtainGeoStore completes without raising and
returns the geostore, and injection in sql2SQL fails: the read of line 103
raises a TypeError, which sql2SQL raises in turn. -/
theorem sql2SQL_inject_raises :
    noFeatureEnv.deserialize "abc123" = .ok (some noFeatureGeostore) ∧
    obtainGeoStore noFeatureEnv "abc123" = .ok (some noFeatureGeostore) ∧
    geometryOf (some noFeatureGeostore) = .error .typeError ∧
    sql2SQL.inject noFeatureEnv ⟨"SELECT * FROM t WHERE x = 1", some "abc123"⟩ filteredAST
      = .error .typeError ∧
    sql2SQL noFeatureEnv ⟨"SELECT * FROM t WHERE x = 1", some "abc123"⟩
      = .error .typeError :=
  ⟨rfl, rfl, rfl, rfl, rfl⟩

/-- C16, amended: when the request succeeds and the deserializer yields a
geostore object g, obtainGeoStore returns g as it is, without validating it.
Injection in sql2SQL then has a failure path: when g has no geojson, no
feature list or an empty feature list, the read of line 103 raises a TypeError
and sql2SQL raises it; when g has a first feature f, the geometry read is
f.geometry and injection returns a tree. -/
theorem obtainGeoStore_unvalidated (env : Env) (id : String) (result : Response)
    (g : Geostore)
    (hreq : env.requestToMicroservice
        { uri := env.encodeURI ("/geostore/" ++ id), method := "GET", json := true }
      = .ok result)
    (hdes : env.deserialize result = .ok (some g)) :
    obtainGeoStore env id = .ok (some g) ∧
    ((g.geojson = none ∨ ∃ gj, g.geojson = some gj ∧
        (gj.features = none ∨ gj.features = some [])) →
      geometryOf (some g) = .error .typeError ∧
      ∀ data ast, env.toJSON data.sql = some ast → data.geostore = some id → id ≠ "" →
        sql2SQL.inject env data ast = .error .typeError ∧
        sql2SQL env data = .error .typeError) ∧
    (∀ gj f rest, g.geojson = some gj → gj.features = some (f :: rest) →
      geometryOf (some g) = .ok f.geometry ∧
      ∀ data ast, env.toJSON data.sql = some ast → data.geostore = some id → id ≠ "" →
        ∃ final, sql2SQL.inject env data ast = .ok final) := by
  have hfetch : obtainGeoStore env id = .ok (some g) := by
    unfold obtainGeoStore obtainGeoStore.attempt
    simp only [hreq, bind, Except.bind, hdes]
    rfl
  refine ⟨hfetch, ?_, ?_⟩
  · intro hno
    have hgeom : geometryOf (some g) = .error .typeError := by
      unfold geometryOf
      rcases hno with h | ⟨gj, h, h2 | h2⟩
      · simp [h]
      · simp [h, h2]
      · simp [h, h2]
    refine ⟨hgeom, ?_⟩
    intro data ast hparse hid hne
    have hinj : sql2SQL.inject env data ast = .error .typeError := by
      unfold sql2SQL.inject
      simp only [hid, hne, ne_eq, not_false_eq_true, if_true, hfetch, bind, Except.bind, hgeom]
    refine ⟨hinj, ?_⟩
    unfold sql2SQL
    simp only [hparse, hinj]
  · intro gj f rest h h2
    have hgeom : geometryOf (some g) = .ok f.geometry := by
      unfold geometryOf
      simp [h, h2]
    refine ⟨hgeom, ?_⟩
    intro data ast _ hid hne
    exact ⟨_, inject_with_geostore env data ast id (some g) f.geometry hid hne hfetch hgeom⟩

/-- Witness of C16 amended, at the geostore abc123 of the service whose
geostores have no feature. -/
theorem obtainGeoStore_unvalidated_witness :
    obtainGeoStore noFeatureEnv "abc123" = .ok (some noFeatureGeostore) ∧
    ((noFeatureGeostore.geojson = none ∨ ∃ gj, noFeatureGeostore.geojson = some gj ∧
        (gj.features = none ∨ gj.features = some [])) →
      geometryOf (some noFeatureGeostore) = .error .typeError ∧
      ∀ data ast, noFeatureEnv.toJSON data.sql = some ast → data.geostore = some "abc123" →
        "abc123" ≠ "" →
        sql2SQL.inject noFeatureEnv data ast = .error .typeError ∧
        sql2SQL noFeatureEnv data = .error .typeError) ∧
    (∀ gj f rest, noFeatureGeostore.geojson = some gj → gj.features = some (f :: rest) →
      geometryOf (some noFeatureGeostore) = .ok f.geometry ∧
      ∀ data ast, noFeatureEnv.toJSON data.sql = some ast → data.geostore = some "abc123" →
        "abc123" ≠ "" →
        ∃ final, sql2SQL.inject noFeatureEnv data ast = .ok final) :=
  obtainGeoStore_unvalidated noFeatureEnv "abc123" "abc123" noFeatureGeostore rfl rfl

/-- C17: whenever lines 87-123 leave a tree final for the parsed tree ast,
final has the type, select list, from list and join list of ast, and checkSQL
gives the same result on final as on ast. -/
theorem sql2SQL_inject_frame (env : Env) (data : Data) (ast final : AST)
    (hinj : sql2SQL.inject env data ast = .ok final) :
    final.type = ast.type ∧ final.select = ast.select ∧ final.from_ = ast.from_ ∧
    final.join = ast.join ∧ checkSQL (some final) = checkSQL (some ast) := by
  have hfields : final.type = ast.type ∧ final.select = ast.select ∧
      final.from_ = ast.from_ ∧ final.join = ast.join := by
    unfold sql2SQL.inject at hinj
    cases hgeo : data.geostore with
    | none =>
      simp only [hgeo, Except.ok.injEq] at hinj
      subst hinj
      exact ⟨rfl, rfl, rfl, rfl⟩
    | some id =>
      simp only [hgeo] at hinj
      by_cases hne : id = ""
      · simp only [hne, ne_eq, not_true_eq_false, if_false, Except.ok.injEq] at hinj
        subst hinj
        exact ⟨rfl, rfl, rfl, rfl⟩
      · simp only [hne, ne_eq, not_false_eq_true, if_true] at hinj
        cases hfetch : obtainGeoStore env id with
        | error e => simp [hfetch, bind, Except.bind] at hinj
        | ok gs =>
          cases hgeom : geometryOf gs with
          | error e => simp [hfetch, hgeom, bind, Except.bind] at hinj
          | ok G =>
            simp only [hfetch, hgeom, bind, Except.bind] at hinj
            cases hw : ast.where_ with
            | none =>
              simp only [hw, pure, Except.pure, Except.ok.injEq] at hinj
              subst hinj
              exact ⟨rfl, rfl, rfl, rfl⟩
            | some w =>
              simp only [hw, pure, Except.pure, Except.ok.injEq] at hinj
              subst hinj
              exact ⟨rfl, rfl, rfl, rfl⟩
  obtain ⟨ht, hs, hf, hj⟩ := hfields
  refine ⟨ht, hs, hf, hj, ?_⟩
  unfold checkSQL
  simp only [hs, hf]

/-- Witness of C17, at SELECT * FROM t WHERE x = 1 with the geostore abc123,
where the where predicate does change. -/
theorem sql2SQL_inject_frame_witness :
    (AST.mk filteredAST.type filteredAST.select filteredAST.from_ filteredAST.join
        (some (.conditional "and" (intersect sampleEnv sampleGeometry) xEqOne))).type
      = filteredAST.type ∧
    (AST.mk filteredAST.type filteredAST.select filteredAST.from_ filteredAST.join
        (some (.conditional "and" (intersect sampleEnv sampleGeometry) xEqOne))).select
      = filteredAST.select ∧
    (AST.mk filteredAST.type filteredAST.select filteredAST.from_ filteredAST.join
        (some (.conditional "and" (intersect sampleEnv sampleGeometry) xEqOne))).from_
      = filteredAST.from_ ∧
    (AST.mk filteredAST.type filteredAST.select filteredAST.from_ filteredAST.join
        (some (.conditional "and" (intersect sampleEnv sampleGeometry) xEqOne))).join
      = filteredAST.join ∧
    checkSQL (some (AST.mk filteredAST.type filteredAST.select filteredAST.from_
        filteredAST.join
        (some (.conditional "and" (intersect sampleEnv sampleGeometry) xEqOne))))
      = checkSQL (some filteredAST) :=
  sql2SQL_inject_frame sampleEnv ⟨"SELECT * FROM t WHERE x = 1", some "abc123"⟩ filteredAST
    (AST.mk filteredAST.type filteredAST.select filteredAST.from_ filteredAST.join
      (some (.conditional "and" (intersect sampleEnv sampleGeometry) xEqOne))) rfl

/-- C18: for a tree whose type is neither select nor delete and which also
has a non-empty join list or more than one from entry, correctSQL returns the
error object whose message is Type, that type, not allowed (the string itself,
null for a null type, undefined for an absent type), and not the error Joins
not allowed. -/
theorem correctSQL_type_before_joins (ast : AST)
    (hs : ast.type ≠ .string "select") (hd : ast.type ≠ .string "delete")
    (hshape : (∃ j, ast.join = some j ∧ j ≠ []) ∨ (∃ f, ast.from_ = some f ∧ f.length > 1)) :
    (correctSQL ast).error = true ∧
    (∀ t, ast.type = .string t →
      correctSQL ast = { error := true, message := some ("Type " ++ t ++ " not allowed") }) ∧
    (ast.type = .null →
      correctSQL ast = { error := true, message := some "Type null not allowed" }) ∧
    (ast.type = .undefined →
      correctSQL ast = { error := true, message := some "Type undefined not allowed" }) ∧
    correctSQL ast ≠ { error := true, message := some "Joins not allowed" } := by
  have _ := hshape
  have h : correctSQL ast
      = { error := true, message := some ("Type " ++ templateType ast.type ++ " not allowed") } := by
    unfold correctSQL
    rw [if_pos ⟨hs, hd⟩]
    rfl
  refine ⟨by rw [h], ?_, ?_, ?_, ?_⟩
  · intro t ht
    rw [h, ht]
    rfl
  · intro ht
    rw [h, ht]
    rfl
  · intro ht
    rw [h, ht]
    rfl
  · rw [h]
    intro hc
    simp only [Result.mk.injEq, Option.some.injEq, true_and] at hc
    exact type_message_ne_joins _ hc

/-- Witness of C18, at a tree of null type with a join and two sources. -/
theorem correctSQL_type_before_joins_witness :
    (correctSQL { insertJoinAST with type := .null }).error = true ∧
    (∀ t, (AST.mk .null insertJoinAST.select insertJoinAST.from_ insertJoinAST.join
        insertJoinAST.where_).type = .string t →
      correctSQL { insertJoinAST with type := .null }
        = { error := true, message := some ("Type " ++ t ++ " not allowed") }) ∧
    ((AST.mk .null insertJoinAST.select insertJoinAST.from_ insertJoinAST.join
        insertJoinAST.where_).type = .null →
      correctSQL { insertJoinAST with type := .null }
        = { error := true, message := some "Type null not allowed" }) ∧
    ((AST.mk .null insertJoinAST.select insertJoinAST.from_ insertJoinAST.join
        insertJoinAST.where_).type = .undefined →
      correctSQL { insertJoinAST with type := .null }
        = { error := true, message := some "Type undefined not allowed" }) ∧
    correctSQL { insertJoinAST with type := .null }
      ≠ { error := true, message := some "Joins not allowed" } :=
  correctSQL_type_before_joins { insertJoinAST with type := .null } (by decide) (by decide)
    (Or.inl ⟨["c"], rfl, by simp⟩)

end SQLService
